import Mathlib

/-! Verification development for the service-a instrumentation core of the
Observability-Platform repository (src/applications/python/service-a/main.py).

The embedding models:
* the Prometheus registry state accumulated by the three labelled HTTP
  metrics (`http_requests_total`, `http_request_duration_seconds`,
  `http_request_duration_summary_seconds`) plus the `node_gauge_example`
  gauge, keyed by label instances;
* the per-request middleware `prometheus_middleware` (main.py lines 69-83);
* the route dispatch of the FastAPI app (main.py lines 88-160), with the
  wall clock abstracted into an explicit request-duration parameter, the
  random task duration of `/example` and the network outcome of
  `/call-service-b` abstracted into an environment record;
* the exposition serialisation (`generate_latest`, `CONTENT_TYPE_LATEST`),
  which is prometheus_client library code not present in the repository and
  is therefore modelled from the specification's exposition grammar.
-/

namespace ServiceA

/-- A concrete label instance of the three HTTP metrics: values for the
declared label names `method`, `path`, `status_code` (main.py lines 41-58). -/
structure LabelInstance where
  method : String
  path : String
  statusCode : Nat
deriving DecidableEq, Repr

/-- An HTTP response as the middleware sees it: status code, media type and
body. -/
structure HttpResponse where
  statusCode : Nat
  mediaType : String
  body : String
deriving DecidableEq, Repr

/-- An inbound HTTP request: method and path. -/
structure HttpRequest where
  method : String
  path : String
deriving DecidableEq, Repr

/-- The registry state: per-label-instance aggregation state of the four
metrics registered at main.py lines 41-64.  Counters hold the running total
of `inc()` calls; histogram and summary children hold the list of observed
durations (in seconds, modelled as rationals); the gauge holds the last set
value per `(method, status)` label pair.  Association lists keep insertion
order, mirroring the registry's child bookkeeping. -/
structure RegistryState where
  counter : List (LabelInstance × Nat)
  hist : List (LabelInstance × List ℚ)
  summ : List (LabelInstance × List ℚ)
  gauge : List ((String × String) × ℚ)
deriving DecidableEq, Repr

/-- The registry at process start: all four metrics registered, no label
instance observed yet. -/
def initialState : RegistryState := ⟨[], [], [], []⟩

/-- Look up a counter child's value; an instance never observed reads 0. -/
def lookupNat (l : List (LabelInstance × Nat)) (key : LabelInstance) : Nat :=
  match l with
  | [] => 0
  | (k, v) :: rest => if k = key then v else lookupNat rest key

/-- Look up the observation list of a histogram/summary child; an instance
never observed reads the empty list. -/
def lookupObs (l : List (LabelInstance × List ℚ)) (key : LabelInstance) : List ℚ :=
  match l with
  | [] => []
  | (k, v) :: rest => if k = key then v else lookupObs rest key

/-- Operation `Counter.labels(...).inc()` (main.py line 79): add 1 to the child for
`key`, creating the child at 1 when `key` is new. -/
def bumpCounter (l : List (LabelInstance × Nat)) (key : LabelInstance) :
    List (LabelInstance × Nat) :=
  match l with
  | [] => [(key, 1)]
  | (k, v) :: rest =>
    if k = key then (k, v + 1) :: rest else (k, v) :: bumpCounter rest key

/-- Operation `Histogram/Summary.labels(...).observe(d)` (main.py lines 80-81): record
one observation `d` against the child for `key`. -/
def appendObs (l : List (LabelInstance × List ℚ)) (key : LabelInstance) (d : ℚ) :
    List (LabelInstance × List ℚ) :=
  match l with
  | [] => [(key, [d])]
  | (k, v) :: rest =>
    if k = key then (k, v ++ [d]) :: rest else (k, v) :: appendObs rest key d

/-- Operation `Gauge.labels(...).set(v)` as performed by the `gauge.time()` context
manager of `/example` (main.py lines 129-133): the block duration replaces
the child's value. -/
def gaugeSet (l : List ((String × String) × ℚ)) (key : String × String) (v : ℚ) :
    List ((String × String) × ℚ) :=
  match l with
  | [] => [(key, v)]
  | (k, w) :: rest =>
    if k = key then (k, v) :: rest else (k, w) :: gaugeSet rest key v

/-- The value of `http_requests_total` for a label instance. -/
def counterValue (st : RegistryState) (key : LabelInstance) : Nat :=
  lookupNat st.counter key

/-- The observations of `http_request_duration_seconds` for a label instance. -/
def histObsOf (st : RegistryState) (key : LabelInstance) : List ℚ :=
  lookupObs st.hist key

/-- The observations of `http_request_duration_summary_seconds` for a label
instance. -/
def summObsOf (st : RegistryState) (key : LabelInstance) : List ℚ :=
  lookupObs st.summ key

/-- The state update performed by the body of `prometheus_middleware`
(main.py lines 79-81) once the handler has returned: one counter increment
and one duration observation on the histogram and on the summary, all three
against the same `(method, path, status_code)` label instance. -/
def middlewareRecord (st : RegistryState) (method path : String)
    (statusCode : Nat) (duration : ℚ) : RegistryState :=
  let key : LabelInstance := ⟨method, path, statusCode⟩
  { st with
    counter := bumpCounter st.counter key
    hist := appendObs st.hist key duration
    summ := appendObs st.summ key duration }

/-- Middleware `prometheus_middleware` (main.py lines 69-83): record the start time,
delegate to `call_next`, and on handler return record the elapsed duration
and the response's labels; the handler's response is returned unchanged.
Wall-clock elapsed time is abstracted as the `duration` parameter.  A
handler that terminates the process (`/crash`, main.py line 121) is
modelled as `none`: no response, and no observation recorded. -/
def prometheus_middleware (st : RegistryState) (req : HttpRequest)
    (callNext : RegistryState → Option (RegistryState × HttpResponse))
    (duration : ℚ) : Option (RegistryState × HttpResponse) :=
  match callNext st with
  | none => none
  | some (st₁, resp) =>
    some (middlewareRecord st₁ req.method req.path resp.statusCode duration, resp)

/-- Modelled from the spec: prometheus_client `Counter` observation
semantics are library code not under src/.  §4.1: "For Counter, `value`
must be ≥0 and is added to the running total." -/
def counterObserve (total v : ℚ) : ℚ := total + v

/-- The fixed bucket upper bounds of `request_duration_histogram`
(main.py line 51): `buckets=(0.1, 0.5, 1, 5, 10)`. -/
def histogramBuckets : List ℚ := [1/10, 1/2, 1, 5, 10]

/-- Modelled from the spec: prometheus_client `Histogram` bucket counting is
library code not under src/.  §8: the cumulative count exposed for bound
`b` is the number of observations with value ≤ b. -/
def bucketCumCount (obs : List ℚ) (b : ℚ) : Nat :=
  (obs.filter (fun v => decide (v ≤ b))).length

/-- Modelled from the spec: §4.1 "value is placed into the bucket whose
upper bound is the smallest bound ≥ value (plus one overflow +Inf bucket)".
`none` means the overflow bucket. -/
def placedBucket (bounds : List ℚ) (v : ℚ) : Option ℚ :=
  bounds.find? (fun b => decide (v ≤ b))

/-- Modelled from the spec: the "+Inf" bucket counts every observation,
whether placed in a finite bucket or in the overflow bucket. -/
def bucketInfCount (obs : List ℚ) : Nat :=
  (obs.filter (fun v => (placedBucket histogramBuckets v).isSome)).length
    + (obs.filter (fun v => (placedBucket histogramBuckets v).isNone)).length

/-- Modelled from the spec: prometheus_client's `CONTENT_TYPE_LATEST`
constant is library code not under src/.  §6: content-type
`text/plain; version=0.0.4`. -/
def CONTENT_TYPE_LATEST : String := "text/plain; version=0.0.4"

/-- Render a rational sample value (integers without a denominator). -/
def ratStr (q : ℚ) : String :=
  if q.den = 1 then toString q.num else toString q.num ++ "/" ++ toString q.den

/-- The serialized label set `{method="...",path="...",status_code="..."}`
of one label instance. -/
def labelStr (key : LabelInstance) : String :=
  "\x7bmethod=\"" ++ key.method ++ "\",path=\"" ++ key.path
    ++ "\",status_code=\"" ++ toString key.statusCode ++ "\"\x7d"

/-- The serialized label set of a histogram bucket sample: the instance's
labels plus the `le` bound label. -/
def labelStrLe (key : LabelInstance) (bound : String) : String :=
  "\x7bmethod=\"" ++ key.method ++ "\",path=\"" ++ key.path
    ++ "\",status_code=\"" ++ toString key.statusCode
    ++ "\",le=\"" ++ bound ++ "\"\x7d"

/-- The bucket bounds of main.py line 51 paired with their exposition
rendering. -/
def boundLabels : List (ℚ × String) :=
  [(1/10, "0.1"), (1/2, "0.5"), (1, "1.0"), (5, "5.0"), (10, "10.0")]

/-- Modelled from the spec: exposition lines of `http_requests_total`
(§6 grammar: HELP line, TYPE line, one sample per label instance). -/
def counterLines (st : RegistryState) : List String :=
  "# HELP http_requests_total Total number of HTTP requests" ::
  "# TYPE http_requests_total counter" ::
  st.counter.map (fun kv => "http_requests_total" ++ labelStr kv.1 ++ " " ++ toString kv.2)

/-- Modelled from the spec: the per-child exposition lines of the histogram
(§6: one cumulative `_bucket` line per bound, an overflow `+Inf` bucket,
then `_sum` and `_count`). -/
def histChildLines (kv : LabelInstance × List ℚ) : List String :=
  (boundLabels.map (fun bl =>
    "http_request_duration_seconds_bucket" ++ labelStrLe kv.1 bl.2
      ++ " " ++ toString (bucketCumCount kv.2 bl.1)))
  ++ ["http_request_duration_seconds_bucket" ++ labelStrLe kv.1 "+Inf"
        ++ " " ++ toString (bucketInfCount kv.2),
      "http_request_duration_seconds_sum" ++ labelStr kv.1 ++ " " ++ ratStr kv.2.sum,
      "http_request_duration_seconds_count" ++ labelStr kv.1 ++ " " ++ toString kv.2.length]

/-- Modelled from the spec: exposition lines of
`http_request_duration_seconds`. -/
def histLines (st : RegistryState) : List String :=
  "# HELP http_request_duration_seconds Duration of HTTP requests in seconds" ::
  "# TYPE http_request_duration_seconds histogram" ::
  (st.hist.map histChildLines).flatten

/-- Modelled from the spec: exposition lines of
`http_request_duration_summary_seconds` (§6: `_sum` and `_count` lines per
label instance). -/
def summLines (st : RegistryState) : List String :=
  "# HELP http_request_duration_summary_seconds Summary of HTTP request durations" ::
  "# TYPE http_request_duration_summary_seconds summary" ::
  (st.summ.map (fun kv =>
    ["http_request_duration_summary_seconds_sum" ++ labelStr kv.1 ++ " " ++ ratStr kv.2.sum,
     "http_request_duration_summary_seconds_count" ++ labelStr kv.1 ++ " "
       ++ toString kv.2.length])).flatten

/-- Modelled from the spec: exposition lines of `node_gauge_example`. -/
def gaugeLines (st : RegistryState) : List String :=
  "# HELP node_gauge_example Example gauge tracking async task duration" ::
  "# TYPE node_gauge_example gauge" ::
  st.gauge.map (fun kv =>
    "node_gauge_example\x7bmethod=\"" ++ kv.1.1 ++ "\",status=\"" ++ kv.1.2
      ++ "\"\x7d " ++ ratStr kv.2)

/-- Modelled from the spec: prometheus_client's `generate_latest` is library
code not under src/.  It serializes the registry's current state, metric by
metric in registration order (main.py lines 41-64), into the exposition
lines of §6. -/
def generate_latest (st : RegistryState) : List String :=
  counterLines st ++ histLines st ++ summLines st ++ gaugeLines st

/-- External inputs abstracted out of the route handlers: the outcome of the
`/call-service-b` proxy request (`some body` on success, `none` on a raised
exception) and the random duration of the `/example` async task. -/
structure Env where
  serviceB : Option String
  taskDuration : ℚ
deriving Repr

/-- A default environment for concrete scenarios. -/
def defaultEnv : Env := ⟨none, 0⟩

/-- Response body of `GET /` (main.py line 90). -/
def rootBody : String := "\x7b\"status\":\"🏃- Running\"\x7d"

/-- Response body of `GET /healthy` (main.py lines 94-97). -/
def healthyBody : String :=
  "\x7b\"name\":\"👀 - Observability 🔥 - Abhishek Veeramalla\",\"status\":\"healthy\"\x7d"

/-- Response body of `GET /serverError` (main.py lines 101-104). -/
def serverErrorBody : String :=
  "\x7b\"error\":\"Internal server error\",\"statusCode\":500\x7d"

/-- Response body of `GET /notFound` (main.py lines 108-111). -/
def notFoundBody : String := "\x7b\"error\":\"Not Found\",\"statusCode\":404\x7d"

/-- Response body of `GET /logs` (main.py line 116). -/
def logsBody : String := "\x7b\"objective\":\"To generate logs\"\x7d"

/-- Response body of `GET /call-service-b` when the proxy call raises
(main.py lines 157-159). -/
def serviceBErrorBody : String :=
  "\x7b\"error\":\"Error communicating with Service B\"\x7d"

/-- FastAPI's default body for an unmatched route. -/
def routerNotFoundBody : String := "\x7b\"detail\":\"Not Found\"\x7d"

/-- FastAPI's default body for a wrong method on a matched route. -/
def methodNotAllowedBody : String := "\x7b\"detail\":\"Method Not Allowed\"\x7d"

/-- The paths with a registered GET handler (main.py lines 88-160). -/
def getPaths : List String :=
  ["/", "/healthy", "/serverError", "/notFound", "/logs", "/crash",
   "/example", "/metrics", "/call-service-b"]

/-- The route dispatch of the FastAPI app (main.py lines 88-160).  `none`
models `/crash`, whose handler terminates the process (main.py line 121) and
never returns a response.  `/example` updates the gauge through
`gauge.labels(request.method, "running").time()`; `/metrics` serializes the
current registry state; unmatched routes get FastAPI's default 404/405
responses. -/
def serviceA_handle (env : Env) (st : RegistryState) (req : HttpRequest) :
    Option (RegistryState × HttpResponse) :=
  if req.method = "GET" then
    if req.path = "/" then some (st, ⟨200, "application/json", rootBody⟩)
    else if req.path = "/healthy" then some (st, ⟨200, "application/json", healthyBody⟩)
    else if req.path = "/serverError" then
      some (st, ⟨500, "application/json", serverErrorBody⟩)
    else if req.path = "/notFound" then some (st, ⟨404, "application/json", notFoundBody⟩)
    else if req.path = "/logs" then some (st, ⟨200, "application/json", logsBody⟩)
    else if req.path = "/crash" then none
    else if req.path = "/example" then
      some ({ st with gauge := gaugeSet st.gauge (req.method, "running") env.taskDuration },
            ⟨200, "text/plain; charset=utf-8", "Async task completed"⟩)
    else if req.path = "/metrics" then
      some (st, ⟨200, CONTENT_TYPE_LATEST, String.intercalate "\n" (generate_latest st)⟩)
    else if req.path = "/call-service-b" then
      match env.serviceB with
      | some txt =>
        some (st, ⟨200, "text/plain; charset=utf-8", "Service B says: " ++ txt⟩)
      | none => some (st, ⟨500, "application/json", serviceBErrorBody⟩)
    else some (st, ⟨404, "application/json", routerNotFoundBody⟩)
  else if req.path ∈ getPaths then
    some (st, ⟨405, "application/json", methodNotAllowedBody⟩)
  else some (st, ⟨404, "application/json", routerNotFoundBody⟩)

/-- One full request/response cycle of the app: the middleware wraps the
route dispatch, so a completed request both returns the handler's response
and records the three metric observations. -/
def serviceA_step (env : Env) (st : RegistryState) (req : HttpRequest)
    (duration : ℚ) : Option (RegistryState × HttpResponse) :=
  prometheus_middleware st req (fun s => serviceA_handle env s req) duration

/-- Run a sequence of requests (each with its duration) through the app,
collecting the final registry state and the returned status codes; `none`
when some request in the sequence never completes. -/
def runSteps (env : Env) (st : RegistryState) :
    List (HttpRequest × ℚ) → Option (RegistryState × List Nat)
  | [] => some (st, [])
  | (req, d) :: rest =>
    match serviceA_step env st req d with
    | none => none
    | some (st₁, resp) =>
      match runSteps env st₁ rest with
      | none => none
      | some (stf, codes) => some (stf, resp.statusCode :: codes)

/-- Whether `pat` starts the character list `s`. -/
def charsStartWith : List Char → List Char → Bool
  | [], _ => true
  | _ :: _, [] => false
  | p :: ps, c :: cs => p = c && charsStartWith ps cs

/-- Whether `pat` occurs somewhere in the character list. -/
def charsContain (pat : List Char) : List Char → Bool
  | [] => charsStartWith pat []
  | c :: cs => charsStartWith pat (c :: cs) || charsContain pat cs

/-- Whether `pat` occurs as a substring of `s`. -/
def containsSubstr (s pat : String) : Bool :=
  charsContain pat.data s.data

/-- The per-label-instance consistency invariant of the registry: the
counter value, histogram observation count and summary observation count
agree for every label instance. -/
def metricsAligned (st : RegistryState) : Prop :=
  ∀ key : LabelInstance,
    counterValue st key = (histObsOf st key).length
      ∧ counterValue st key = (summObsOf st key).length

/-- The registry state after three completed `GET /healthy` requests from a
fresh registry (each with duration 0). -/
def healthy3State : RegistryState :=
  ⟨[(⟨"GET", "/healthy", 200⟩, 3)],
   [(⟨"GET", "/healthy", 200⟩, [0, 0, 0])],
   [(⟨"GET", "/healthy", 200⟩, [0, 0, 0])],
   []⟩

/-- The registry state after one completed `GET /healthy` request from a
fresh registry (duration 0). -/
def healthy1State : RegistryState :=
  ⟨[(⟨"GET", "/healthy", 200⟩, 1)],
   [(⟨"GET", "/healthy", 200⟩, [0])],
   [(⟨"GET", "/healthy", 200⟩, [0])],
   []⟩

/-- The registry state after one completed `GET /notFound` request from a
fresh registry (duration 0). -/
def notFound1State : RegistryState :=
  ⟨[(⟨"GET", "/notFound", 404⟩, 1)],
   [(⟨"GET", "/notFound", 404⟩, [0])],
   [(⟨"GET", "/notFound", 404⟩, [0])],
   []⟩

theorem lookupNat_bump_self (l : List (LabelInstance × Nat)) (key : LabelInstance) :
    lookupNat (bumpCounter l key) key = lookupNat l key + 1 := by
  induction l with
  | nil => simp [bumpCounter, lookupNat]
  | cons p rest ih =>
    obtain ⟨k, v⟩ := p
    by_cases h : k = key
    · subst h
      simp [bumpCounter, lookupNat]
    · simp [bumpCounter, lookupNat, h, ih]

theorem lookupNat_bump_other (l : List (LabelInstance × Nat)) (key key' : LabelInstance)
    (h : key' ≠ key) :
    lookupNat (bumpCounter l key) key' = lookupNat l key' := by
  induction l with
  | nil => simp [bumpCounter, lookupNat, Ne.symm h]
  | cons p rest ih =>
    obtain ⟨k, v⟩ := p
    by_cases hk : k = key
    · subst hk
      simp [bumpCounter, lookupNat, Ne.symm h]
    · simp [bumpCounter, lookupNat, hk, ih]

theorem lookupObs_append_self (l : List (LabelInstance × List ℚ)) (key : LabelInstance)
    (d : ℚ) :
    lookupObs (appendObs l key d) key = lookupObs l key ++ [d] := by
  induction l with
  | nil => simp [appendObs, lookupObs]
  | cons p rest ih =>
    obtain ⟨k, v⟩ := p
    by_cases h : k = key
    · subst h
      simp [appendObs, lookupObs]
    · simp [appendObs, lookupObs, h, ih]

theorem lookupObs_append_other (l : List (LabelInstance × List ℚ)) (key key' : LabelInstance)
    (d : ℚ) (h : key' ≠ key) :
    lookupObs (appendObs l key d) key' = lookupObs l key' := by
  induction l with
  | nil => simp [appendObs, lookupObs, Ne.symm h]
  | cons p rest ih =>
    obtain ⟨k, v⟩ := p
    by_cases hk : k = key
    · subst hk
      simp [appendObs, lookupObs, Ne.symm h]
    · simp [appendObs, lookupObs, hk, ih]

theorem counterValue_record_self (st : RegistryState) (m p : String) (sc : Nat) (d : ℚ) :
    counterValue (middlewareRecord st m p sc d) ⟨m, p, sc⟩
      = counterValue st ⟨m, p, sc⟩ + 1 := by
  simp [middlewareRecord, counterValue, lookupNat_bump_self]

theorem counterValue_record_other (st : RegistryState) (m p : String) (sc : Nat) (d : ℚ)
    (key' : LabelInstance) (h : key' ≠ ⟨m, p, sc⟩) :
    counterValue (middlewareRecord st m p sc d) key' = counterValue st key' := by
  simp [middlewareRecord, counterValue, lookupNat_bump_other _ _ _ h]

theorem histObsOf_record_self (st : RegistryState) (m p : String) (sc : Nat) (d : ℚ) :
    histObsOf (middlewareRecord st m p sc d) ⟨m, p, sc⟩
      = histObsOf st ⟨m, p, sc⟩ ++ [d] := by
  simp [middlewareRecord, histObsOf, lookupObs_append_self]

theorem histObsOf_record_other (st : RegistryState) (m p : String) (sc : Nat) (d : ℚ)
    (key' : LabelInstance) (h : key' ≠ ⟨m, p, sc⟩) :
    histObsOf (middlewareRecord st m p sc d) key' = histObsOf st key' := by
  simp [middlewareRecord, histObsOf, lookupObs_append_other _ _ _ _ h]

theorem summObsOf_record_self (st : RegistryState) (m p : String) (sc : Nat) (d : ℚ) :
    summObsOf (middlewareRecord st m p sc d) ⟨m, p, sc⟩
      = summObsOf st ⟨m, p, sc⟩ ++ [d] := by
  simp [middlewareRecord, summObsOf, lookupObs_append_self]

theorem summObsOf_record_other (st : RegistryState) (m p : String) (sc : Nat) (d : ℚ)
    (key' : LabelInstance) (h : key' ≠ ⟨m, p, sc⟩) :
    summObsOf (middlewareRecord st m p sc d) key' = summObsOf st key' := by
  simp [middlewareRecord, summObsOf, lookupObs_append_other _ _ _ _ h]

theorem foldl_counterObserve (vs : List ℚ) (a : ℚ) :
    vs.foldl counterObserve a = a + vs.sum := by
  induction vs generalizing a with
  | nil => simp
  | cons v t ih =>
    rw [List.foldl_cons, List.sum_cons, ih]
    simp [counterObserve]
    ring

/-- C3: for every sequence of observe calls on a Counter with non-negative
values against one label instance, the final Counter value equals the sum of
all recorded values in the sequence. -/
theorem counter_final_value_is_sum (vs : List ℚ) (h : ∀ v ∈ vs, 0 ≤ v) :
    vs.foldl counterObserve 0 = vs.sum := by
  rw [foldl_counterObserve]
  ring

/-- Witness for C3 at the concrete sequence [2, 3, 0]. -/
theorem counter_final_value_is_sum_witness :
    ([2, 3, 0] : List ℚ).foldl counterObserve 0 = ([2, 3, 0] : List ℚ).sum :=
  counter_final_value_is_sum [2, 3, 0] (by decide)

/-- C5: the middleware delegates to the downstream handler and returns the
handler's response (status code, media type, body) unchanged; only the
metric records are added on the way out. -/
theorem middleware_returns_response_unchanged (st st₁ : RegistryState)
    (req : HttpRequest)
    (callNext : RegistryState → Option (RegistryState × HttpResponse))
    (d : ℚ) (resp : HttpResponse) (h : callNext st = some (st₁, resp)) :
    prometheus_middleware st req callNext d
      = some (middlewareRecord st₁ req.method req.path resp.statusCode d, resp) := by
  simp [prometheus_middleware, h]

/-- Witness for C5 with a concrete identity handler. -/
theorem middleware_returns_response_unchanged_witness :
    prometheus_middleware initialState ⟨"GET", "/healthy"⟩
        (fun s => some (s, ⟨200, "application/json", healthyBody⟩)) 0
      = some (middlewareRecord initialState "GET" "/healthy" 200 0,
          ⟨200, "application/json", healthyBody⟩) :=
  middleware_returns_response_unchanged initialState initialState ⟨"GET", "/healthy"⟩
    (fun s => some (s, ⟨200, "application/json", healthyBody⟩)) 0
    ⟨200, "application/json", healthyBody⟩ rfl

/-- C2: every completed request produces exactly one set of observations:
the Counter child for the request's (method, path, status_code) label
instance grows by exactly 1, the Histogram and Summary children each gain
exactly the single observation `d` (the elapsed duration), and no other
label instance changes. -/
theorem middleware_exactly_one_observation (st st₁ : RegistryState)
    (req : HttpRequest)
    (callNext : RegistryState → Option (RegistryState × HttpResponse))
    (d : ℚ) (resp : HttpResponse) (h : callNext st = some (st₁, resp)) :
    prometheus_middleware st req callNext d
        = some (middlewareRecord st₁ req.method req.path resp.statusCode d, resp)
      ∧ counterValue (middlewareRecord st₁ req.method req.path resp.statusCode d)
          ⟨req.method, req.path, resp.statusCode⟩
          = counterValue st₁ ⟨req.method, req.path, resp.statusCode⟩ + 1
      ∧ histObsOf (middlewareRecord st₁ req.method req.path resp.statusCode d)
          ⟨req.method, req.path, resp.statusCode⟩
          = histObsOf st₁ ⟨req.method, req.path, resp.statusCode⟩ ++ [d]
      ∧ summObsOf (middlewareRecord st₁ req.method req.path resp.statusCode d)
          ⟨req.method, req.path, resp.statusCode⟩
          = summObsOf st₁ ⟨req.method, req.path, resp.statusCode⟩ ++ [d]
      ∧ ∀ key' : LabelInstance, key' ≠ ⟨req.method, req.path, resp.statusCode⟩ →
          counterValue (middlewareRecord st₁ req.method req.path resp.statusCode d) key'
              = counterValue st₁ key'
            ∧ histObsOf (middlewareRecord st₁ req.method req.path resp.statusCode d) key'
              = histObsOf st₁ key'
            ∧ summObsOf (middlewareRecord st₁ req.method req.path resp.statusCode d) key'
              = summObsOf st₁ key' := by
  refine ⟨by simp [prometheus_middleware, h], counterValue_record_self _ _ _ _ _,
    histObsOf_record_self _ _ _ _ _, summObsOf_record_self _ _ _ _ _, ?_⟩
  intro key' hk
  exact ⟨counterValue_record_other _ _ _ _ _ _ hk, histObsOf_record_other _ _ _ _ _ _ hk,
    summObsOf_record_other _ _ _ _ _ _ hk⟩

/-- Witness for C2 with a concrete handler and label instance. -/
theorem middleware_exactly_one_observation_witness :
    prometheus_middleware initialState ⟨"GET", "/notFound"⟩
        (fun s => some (s, ⟨404, "application/json", notFoundBody⟩)) 0
        = some (middlewareRecord initialState "GET" "/notFound" 404 0,
            ⟨404, "application/json", notFoundBody⟩)
      ∧ counterValue (middlewareRecord initialState "GET" "/notFound" 404 0)
          ⟨"GET", "/notFound", 404⟩
          = counterValue initialState ⟨"GET", "/notFound", 404⟩ + 1
      ∧ histObsOf (middlewareRecord initialState "GET" "/notFound" 404 0)
          ⟨"GET", "/notFound", 404⟩
          = histObsOf initialState ⟨"GET", "/notFound", 404⟩ ++ [0]
      ∧ summObsOf (middlewareRecord initialState "GET" "/notFound" 404 0)
          ⟨"GET", "/notFound", 404⟩
          = summObsOf initialState ⟨"GET", "/notFound", 404⟩ ++ [0]
      ∧ ∀ key' : LabelInstance, key' ≠ ⟨"GET", "/notFound", 404⟩ →
          counterValue (middlewareRecord initialState "GET" "/notFound" 404 0) key'
              = counterValue initialState key'
            ∧ histObsOf (middlewareRecord initialState "GET" "/notFound" 404 0) key'
              = histObsOf initialState key'
            ∧ summObsOf (middlewareRecord initialState "GET" "/notFound" 404 0) key'
              = summObsOf initialState key' :=
  middleware_exactly_one_observation initialState initialState ⟨"GET", "/notFound"⟩
    (fun s => some (s, ⟨404, "application/json", notFoundBody⟩)) 0
    ⟨404, "application/json", notFoundBody⟩ rfl

theorem counterValue_foldl_record (m p : String) (sc : Nat) (ds : List ℚ)
    (st : RegistryState) :
    counterValue (ds.foldl (fun s d => middlewareRecord s m p sc d) st) ⟨m, p, sc⟩
      = counterValue st ⟨m, p, sc⟩ + ds.length := by
  induction ds generalizing st with
  | nil => simp
  | cons d rest ih =>
    rw [List.foldl_cons, ih, counterValue_record_self]
    simp only [List.length_cons]
    omega

/-- C1: after K sequential completed requests with the same
(method, path, status_code) triple the Counter child holds exactly K; in
particular after three completed `GET /healthy` requests (each status 200)
the exposition contains the line
`http_requests_total{method="GET",path="/healthy",status_code="200"} 3`. -/
theorem counter_reports_exactly_k :
    (∀ (m p : String) (sc : Nat) (ds : List ℚ),
      counterValue (ds.foldl (fun s d => middlewareRecord s m p sc d) initialState)
        ⟨m, p, sc⟩ = ds.length)
    ∧ runSteps defaultEnv initialState
        [(⟨"GET", "/healthy"⟩, 0), (⟨"GET", "/healthy"⟩, 0), (⟨"GET", "/healthy"⟩, 0)]
        = some (healthy3State, [200, 200, 200])
    ∧ "http_requests_total\x7bmethod=\"GET\",path=\"/healthy\",status_code=\"200\"\x7d 3"
        ∈ generate_latest healthy3State := by
  refine ⟨?_, rfl, by decide⟩
  intro m p sc ds
  rw [counterValue_foldl_record]
  simp [counterValue, initialState, lookupNat]

/-- C6: every GET /metrics request completes with status 200, content-type
`text/plain; version=0.0.4`, and a body equal to the exposition document of
the registry state at scrape time. -/
theorem metrics_endpoint_contract (env : Env) (st : RegistryState) (d : ℚ) :
    serviceA_step env st ⟨"GET", "/metrics"⟩ d
        = some (middlewareRecord st "GET" "/metrics" 200 d,
            ⟨200, CONTENT_TYPE_LATEST, String.intercalate "\n" (generate_latest st)⟩)
      ∧ CONTENT_TYPE_LATEST = "text/plain; version=0.0.4" :=
  ⟨rfl, rfl⟩

/-- C10: a GET /metrics scrape is itself observed by the middleware: it
increments `http_requests_total` for (GET, /metrics, 200) by 1 and adds one
duration observation to the Histogram and Summary children of that
instance, so the exposition endpoint mutates the registry. -/
theorem metrics_scrape_mutates_registry (env : Env) (st : RegistryState) (d : ℚ) :
    serviceA_step env st ⟨"GET", "/metrics"⟩ d
        = some (middlewareRecord st "GET" "/metrics" 200 d,
            ⟨200, CONTENT_TYPE_LATEST, String.intercalate "\n" (generate_latest st)⟩)
      ∧ counterValue (middlewareRecord st "GET" "/metrics" 200 d) ⟨"GET", "/metrics", 200⟩
          = counterValue st ⟨"GET", "/metrics", 200⟩ + 1
      ∧ histObsOf (middlewareRecord st "GET" "/metrics" 200 d) ⟨"GET", "/metrics", 200⟩
          = histObsOf st ⟨"GET", "/metrics", 200⟩ ++ [d]
      ∧ summObsOf (middlewareRecord st "GET" "/metrics" 200 d) ⟨"GET", "/metrics", 200⟩
          = summObsOf st ⟨"GET", "/metrics", 200⟩ ++ [d] :=
  ⟨rfl, counterValue_record_self st "GET" "/metrics" 200 d,
   histObsOf_record_self st "GET" "/metrics" 200 d,
   summObsOf_record_self st "GET" "/metrics" 200 d⟩

/-- C8: one completed `GET /notFound` request returns status 404 with a
body containing the discriminator "error", and the subsequent exposition
shows the Counter line for (GET, /notFound, 404) with value 1. -/
theorem notFound_scenario :
    serviceA_step defaultEnv initialState ⟨"GET", "/notFound"⟩ 0
        = some (notFound1State, ⟨404, "application/json", notFoundBody⟩)
      ∧ containsSubstr notFoundBody "error" = true
      ∧ "http_requests_total\x7bmethod=\"GET\",path=\"/notFound\",status_code=\"404\"\x7d 1"
          ∈ generate_latest notFound1State :=
  ⟨rfl, by decide, by decide⟩

theorem bucketCumCount_mono (obs : List ℚ) (b₁ b₂ : ℚ) (h : b₁ ≤ b₂) :
    bucketCumCount obs b₁ ≤ bucketCumCount obs b₂ := by
  unfold bucketCumCount
  rw [← List.countP_eq_length_filter, ← List.countP_eq_length_filter]
  refine List.countP_mono_left (fun v _ hv => ?_)
  simp only [decide_eq_true_eq] at hv ⊢
  exact le_trans hv h

theorem bucketInfCount_eq_length (obs : List ℚ) : bucketInfCount obs = obs.length := by
  induction obs with
  | nil => rfl
  | cons v t ih =>
    unfold bucketInfCount at ih ⊢
    cases hp : placedBucket histogramBuckets v with
    | none =>
      simp only [List.filter_cons, hp, Option.isSome_none, Option.isNone_none,
        List.length_cons, if_false, if_true, Bool.false_eq_true, ite_false, ite_true]
      omega
    | some b =>
      simp only [List.filter_cons, hp, Option.isSome_some, Option.isNone_some,
        List.length_cons, if_false, if_true, Bool.false_eq_true, ite_false, ite_true]
      omega

theorem find_first_ge (bounds : List ℚ) (hs : List.Pairwise (· ≤ ·) bounds)
    (v b : ℚ) (h : placedBucket bounds v = some b) :
    v ≤ b ∧ ∀ b' ∈ bounds, v ≤ b' → b ≤ b' := by
  induction bounds with
  | nil => simp [placedBucket] at h
  | cons b₀ rest ih =>
    obtain ⟨hhead, htail⟩ := List.pairwise_cons.mp hs
    by_cases hb : v ≤ b₀
    · rw [placedBucket, List.find?_cons_of_pos _ (by simpa using hb)] at h
      have hb₀ : b₀ = b := by injection h
      subst hb₀
      refine ⟨hb, ?_⟩
      intro b' hb' _
      rcases List.mem_cons.mp hb' with hd | hmem
      · exact le_of_eq hd.symm
      · exact hhead _ hmem
    · rw [placedBucket, List.find?_cons_of_neg _ (by simpa using hb)] at h
      obtain ⟨h₁, h₂⟩ := ih htail h
      refine ⟨h₁, ?_⟩
      intro b' hb' hvb'
      rcases List.mem_cons.mp hb' with hd | hmem
      · exact absurd (hd ▸ hvb') hb
      · exact h₂ b' hmem hvb'

/-- C4: cumulative histogram bucket counts are monotone in the bucket
bound, every cumulative count is at most the "+Inf" count, the "+Inf"
bucket counts exactly the total number of observations, and each value is
placed into the bucket whose upper bound is the smallest configured bound
≥ the value. -/
theorem histogram_bucket_invariants :
    (∀ (obs : List ℚ) (b₁ b₂ : ℚ), b₁ ≤ b₂ →
      bucketCumCount obs b₁ ≤ bucketCumCount obs b₂)
    ∧ (∀ (obs : List ℚ) (b : ℚ), bucketCumCount obs b ≤ bucketInfCount obs)
    ∧ (∀ obs : List ℚ, bucketInfCount obs = obs.length)
    ∧ (∀ v b : ℚ, placedBucket histogramBuckets v = some b →
        v ≤ b ∧ ∀ b' ∈ histogramBuckets, v ≤ b' → b ≤ b') := by
  refine ⟨bucketCumCount_mono, ?_, bucketInfCount_eq_length, ?_⟩
  · intro obs b
    rw [bucketInfCount_eq_length]
    exact List.length_filter_le _ obs
  · intro v b h
    exact find_first_ge histogramBuckets (by norm_num [histogramBuckets]) v b h

/-- Witness for C4 at a concrete observation list and value. -/
theorem histogram_bucket_invariants_witness :
    bucketCumCount [2, 3] 1 ≤ bucketCumCount [2, 3] 5
      ∧ ((2 : ℚ) ≤ 5 ∧ ∀ b' ∈ histogramBuckets, (2 : ℚ) ≤ b' → (5 : ℚ) ≤ b') :=
  ⟨histogram_bucket_invariants.1 [2, 3] 1 5 (by norm_num),
   histogram_bucket_invariants.2.2.2 2 5 (by norm_num [placedBucket, histogramBuckets])⟩

theorem metricsAligned_initial : metricsAligned initialState := by
  intro key
  exact ⟨rfl, rfl⟩

theorem metricsAligned_record (st : RegistryState) (m p : String) (sc : Nat) (d : ℚ)
    (h : metricsAligned st) : metricsAligned (middlewareRecord st m p sc d) := by
  intro key
  by_cases hk : key = ⟨m, p, sc⟩
  · subst hk
    constructor
    · rw [counterValue_record_self, histObsOf_record_self, List.length_append, (h _).1]
      rfl
    · rw [counterValue_record_self, summObsOf_record_self, List.length_append, (h _).2]
      rfl
  · constructor
    · rw [counterValue_record_other _ _ _ _ _ _ hk, histObsOf_record_other _ _ _ _ _ _ hk]
      exact (h key).1
    · rw [counterValue_record_other _ _ _ _ _ _ hk, summObsOf_record_other _ _ _ _ _ _ hk]
      exact (h key).2

set_option maxHeartbeats 1000000 in
theorem serviceA_handle_preserves_metrics (env : Env) (st : RegistryState)
    (req : HttpRequest) (st₁ : RegistryState) (resp : HttpResponse)
    (h : serviceA_handle env st req = some (st₁, resp)) :
    st₁.counter = st.counter ∧ st₁.hist = st.hist ∧ st₁.summ = st.summ := by
  unfold serviceA_handle at h
  repeat' split at h
  all_goals cases h
  all_goals exact ⟨rfl, rfl, rfl⟩

theorem serviceA_step_aligned (env : Env) (st : RegistryState) (req : HttpRequest)
    (d : ℚ) (st' : RegistryState) (resp : HttpResponse)
    (h : serviceA_step env st req d = some (st', resp))
    (ha : metricsAligned st) : metricsAligned st' := by
  unfold serviceA_step prometheus_middleware at h
  split at h
  · cases h
  · rename_i st₁ r heq
    cases h
    obtain ⟨hc, hhist, hsumm⟩ := serviceA_handle_preserves_metrics env st req st₁ _ heq
    have ha₁ : metricsAligned st₁ := by
      intro key
      have hk := ha key
      simp only [counterValue, histObsOf, summObsOf] at hk ⊢
      rw [hc, hhist, hsumm]
      exact hk
    exact metricsAligned_record st₁ _ _ _ _ ha₁

theorem runSteps_aligned (env : Env) (reqs : List (HttpRequest × ℚ))
    (st₀ stf : RegistryState) (codes : List Nat) (h₀ : metricsAligned st₀)
    (h : runSteps env st₀ reqs = some (stf, codes)) : metricsAligned stf := by
  induction reqs generalizing st₀ codes with
  | nil =>
    unfold runSteps at h
    cases h
    exact h₀
  | cons rd rest ih =>
    obtain ⟨req, d⟩ := rd
    unfold runSteps at h
    split at h
    · cases h
    · rename_i st₁ resp₁ hs
      split at h
      · cases h
      · rename_i stf₂ codes₂ hr
        cases h
        exact ih st₁ codes₂ (serviceA_step_aligned env st₀ req d st₁ resp₁ hs h₀) hr

/-- C9: after any sequence of completed requests, the Counter value, the
Histogram observation count and the Summary observation count agree on
every label instance, because each middleware invocation updates all three
metrics exactly once with the same label triple. -/
theorem three_metrics_agree (env : Env) (reqs : List (HttpRequest × ℚ))
    (stf : RegistryState) (codes : List Nat)
    (h : runSteps env initialState reqs = some (stf, codes)) :
    metricsAligned stf :=
  runSteps_aligned env reqs initialState stf codes metricsAligned_initial h

/-- Witness for C9 after one completed `GET /healthy` request. -/
theorem three_metrics_agree_witness : metricsAligned healthy1State :=
  three_metrics_agree defaultEnv [(⟨"GET", "/healthy"⟩, 0)] healthy1State [200] rfl

end ServiceA
